import Mathlib

/-!
Verification of the trading-agents pipeline specification against a shallow
embedding of the repository code.

Each definition is translated from the corresponding Python source file
(named in its doc comment).  Two pieces of the routing/state layer
(`conditional_logic.py`, `signal_processing.py`, `agent_states.py`) are not
present in the source tree; definitions for them are modelled from the
specification text and say so in their doc comments.
-/

/- ================= Data model ================= -/

/-- A model-requested tool invocation: name, argument mapping, identifier
(`langchain_core.messages.ToolCall` as used throughout the agents). -/
structure ToolCallRec where
  name : String
  args : List (String × String)
  callId : String
deriving DecidableEq, Repr, Inhabited

/-- A model response message: text content plus the tool calls it carries
(`langchain_core.messages.AIMessage` as used by the analyst nodes and the
custom Google client). -/
structure AIMsg where
  content : String
  tool_calls : List ToolCallRec
deriving DecidableEq, Repr

/-- Modelled from the spec: the investment debate sub-state of
`agent_states.py` (not in the source tree).  "InvestDebateState: bull
history, bear history, combined history, current response, round counter,
judge decision." -/
structure InvestDebateState where
  bull_history : String
  bear_history : String
  history : String
  current_response : String
  round_count : Nat
  judge_decision : String
deriving DecidableEq, Repr

/-- Modelled from the spec: the risk debate sub-state of `agent_states.py`
(not in the source tree): three-way histories plus combined history,
round counter and judge decision. -/
structure RiskDebateState where
  risky_history : String
  safe_history : String
  neutral_history : String
  history : String
  round_count : Nat
  judge_decision : String
deriving DecidableEq, Repr

/-- Modelled from the spec: the `AgentState` record of `agent_states.py`
(not in the source tree), with the fields the orchestrator logs in
`trading_graph.py._log_state`: ticker, trade date, message log, the four
per-domain report strings, both debate sub-states, the resolved plans and
the final decision. -/
structure AgentState where
  company_of_interest : String
  trade_date : String
  messages : List AIMsg
  market_report : String
  sentiment_report : String
  news_report : String
  fundamentals_report : String
  investment_debate_state : InvestDebateState
  risk_debate_state : RiskDebateState
  investment_plan : String
  trader_investment_plan : String
  final_trade_decision : String
deriving DecidableEq, Repr

/- ================= C1: conditional debate routing ================= -/

/-- The nodes the investment-debate router can select. -/
inductive DebateRoute where
  | bullResearcher
  | bearResearcher
  | researchManager
deriving DecidableEq, Repr

/-- Modelled from the spec: `conditional_logic.py` is not in the source
tree.  Spec contract: "if `investment_debate_state.round_count >=
max_debate_rounds` (configured), route to the investment judge; otherwise
alternate strictly between bull and bear based on whose turn last produced
output (tie-break: bull always starts a fresh debate)."  The last speaker
is read off the current response the way the debaters tag their output
(a bull turn starts with "Bull"). -/
def should_continue_debate (max_debate_rounds : Nat) (s : InvestDebateState) :
    DebateRoute :=
  if max_debate_rounds ≤ s.round_count then
    DebateRoute.researchManager
  else if s.current_response.startsWith "Bull" then
    DebateRoute.bearResearcher
  else
    DebateRoute.bullResearcher

/- ================= C3: signal extraction ================= -/

/-- The fixed marker phrase the prompts instruct every agent to prefix a
final decision with (see the system prompt in `news_analyst.py`:
"FINAL TRANSACTION PROPOSAL: **BUY/HOLD/SELL**"). -/
def signalMarker : List Char := "FINAL TRANSACTION PROPOSAL:".data

/-- Scan for the first occurrence of the pattern and return the suffix
that follows it, or none when the pattern does not occur. -/
def dropToMarker (pat : List Char) : List Char → Option (List Char)
  | [] => if pat.isPrefixOf ([] : List Char) then some [] else none
  | c :: cs =>
    if pat.isPrefixOf (c :: cs) then some ((c :: cs).drop pat.length)
    else dropToMarker pat cs

/-- First of the three signal words occurring in the text, scanning left to
right. -/
def firstSignalWord : List Char → Option String
  | [] => none
  | c :: cs =>
    if "BUY".data.isPrefixOf (c :: cs) then some "BUY"
    else if "SELL".data.isPrefixOf (c :: cs) then some "SELL"
    else if "HOLD".data.isPrefixOf (c :: cs) then some "HOLD"
    else firstSignalWord cs

/-- Modelled from the spec: `signal_processing.py` is not in the source
tree.  Spec contract: "deterministically extract one of {BUY, HOLD, SELL}
by locating a fixed marker phrase in the text; if absent, behavior is
implementation-defined (must be explicitly decided and documented)".  The
fallback for a text with no marker, and for a marker followed by none of
the three words, is fixed and documented here as "HOLD". -/
def process_signal (full_signal : String) : String :=
  match dropToMarker signalMarker full_signal.data with
  | none => "HOLD"
  | some rest => (firstSignalWord rest).getD "HOLD"

/-- Python's `str.lower` over the characters of the string. -/
def lowerStr (s : String) : String := ⟨s.data.map Char.toLower⟩

/-- Python's lexicographic string comparison by code point, on the
character lists. -/
def charListLe : List Char → List Char → Bool
  | [], _ => true
  | _ :: _, [] => false
  | a :: as, b :: bs =>
    if a.toNat < b.toNat then true
    else if b.toNat < a.toNat then false
    else charListLe as bs

/-- Python's `a <= b` on strings. -/
def strLeB (a b : String) : Bool := charListLe a.data b.data

/- ============ C2, C9: FinancialSituationMemory (memory.py) ============ -/

/-- A record stored in a memory collection: situation text (the document),
recommendation text (the metadata), and the numeric identifier that
`add_situations` renders with `str` (`memory.py`, lines 83-104). -/
structure MemRecord where
  memId : Nat
  situation : String
  recommendation : String
deriving DecidableEq, Repr

/-- `FinancialSituationMemory.add_situations` (`memory.py`, lines 83-104):
`offset = self.situation_collection.count()` and the i-th element of the
batch is inserted with identifier `str(offset + i)`.  The collection is
its list of records, `count()` its length; identifiers are modelled by
their numeric value. -/
def add_situations (coll : List MemRecord) (batch : List (String × String)) :
    List MemRecord :=
  coll ++ batch.enum.map (fun p => ⟨coll.length + p.1, p.2.1, p.2.2⟩)

/-- One hit of a vector-store nearest-neighbour query: document,
recommendation metadata, and distance to the query embedding. -/
structure QueryHit where
  document : String
  recommendation : String
  distance : ℚ
deriving DecidableEq, Repr

/-- Ordering of query hits by ascending distance. -/
def hitLE (a b : QueryHit) : Prop := a.distance ≤ b.distance

instance : DecidableRel hitLE :=
  fun a b => inferInstanceAs (Decidable (a.distance ≤ b.distance))

instance : IsTotal QueryHit hitLE := ⟨fun a b => le_total a.distance b.distance⟩

instance : IsTrans QueryHit hitLE := ⟨fun _ _ _ h h2 => le_trans h h2⟩

/-- Modelled from the vector-store client's documented contract (the
`chromadb` collection `query` call in `memory.py`, line 110): the
`n_results` stored entries nearest to the query embedding, ordered by
ascending distance; when fewer entries are stored, all of them. -/
def collection_query (stored : List QueryHit) (n_results : Nat) : List QueryHit :=
  (stored.insertionSort hitLE).take n_results

/-- One entry of the list `get_memories` returns. -/
structure MemMatch where
  matched_situation : String
  recommendation : String
  similarity_score : ℚ
deriving DecidableEq, Repr

/-- `FinancialSituationMemory.get_memories` (`memory.py`, lines 106-126):
queries the collection for `n_matches` results and maps every hit to a
record with `similarity_score = 1 - distance`. -/
def get_memories (stored : List QueryHit) (n_matches : Nat) : List MemMatch :=
  (collection_query stored n_matches).map
    (fun h => ⟨h.document, h.recommendation, 1 - h.distance⟩)

/- ========= C4, C6: market analyst in-node computation ========= -/

/-- A tool as seen by an analyst node: a name and the underlying data
function (`tool.func`), here from argument mapping to the close-price
series of the fetched OHLCV frame. -/
structure AnalystTool where
  name : String
  func : List (String × String) → List ℚ

/-- The tool lookup in `market_analyst.py`, lines 84-89: the first tool in
the provided list whose name is `get_daily_stock_data`. -/
def findDataTool (tools : List AnalystTool) : Option AnalystTool :=
  tools.find? (fun t => t.name == "get_daily_stock_data")

/-- The `stockstats` rolling simple moving average over a close series
(window `w`, `min_periods=1`): the value at row `i` is the arithmetic mean
of the up-to-`w` closes ending at row `i`.  This is the computation
`stock_df[name]` triggers for `close_50_sma` / `close_200_sma` in
`market_analyst.py`, lines 104-117. -/
def rollingSMA (w : Nat) (closes : List ℚ) : List ℚ :=
  (List.range closes.length).map
    (fun i =>
      let window := ((closes.take (i + 1)).drop (i + 1 - w))
      window.sum / window.length)

/-- The last-row value of an indicator column (`.iloc[-1]`). -/
def lastRowValue (column : List ℚ) : Option ℚ := column.getLast?

/-- The per-indicator computation of `market_analyst.py`, lines 113-119:
each indicator is computed inside a `try`, and an exception is converted
into the inline entry `"Error calculating: ..."` instead of propagating.
The two moving averages are computed concretely; the other stockstats
indicators (`rsi`, `macd`, `boll_ub`, `boll_lb`) are abstracted as the
supplied evaluators. -/
def indicatorValues (rsiF macdF bollUbF bollLbF : List ℚ → Except String ℚ)
    (closes : List ℚ) : List (String × Except String ℚ) :=
  [("rsi", rsiF closes),
   ("macd", macdF closes),
   ("boll_ub", bollUbF closes),
   ("boll_lb", bollLbF closes),
   ("close_50_sma",
     match lastRowValue (rollingSMA 50 closes) with
     | some v => Except.ok v
     | none => Except.error "index out of range"),
   ("close_200_sma",
     match lastRowValue (rollingSMA 200 closes) with
     | some v => Except.ok v
     | none => Except.error "index out of range")]

/-- The rendering of one table entry (`market_analyst.py`, lines 113-128):
a computed value is printed, an exception message becomes the inline
string `"Error calculating: ..."`. -/
def renderIndicatorEntry (e : Except String ℚ) : String :=
  match e with
  | Except.ok v => toString v
  | Except.error msg => "Error calculating: " ++ msg

/-- The state update a market analyst node returns. -/
structure MarketUpdate where
  messages : List AIMsg
  market_report : String
deriving DecidableEq, Repr

/-- The empty-data report of `market_analyst.py`, line 100. -/
def couldNotRetrieveReport (ticker startDate endDate : String) : String :=
  "Could not retrieve historical stock data for " ++ ticker ++
    " for the period " ++ startDate ++ " to " ++ endDate ++
    ". Technical analysis cannot be performed."

/-- `market_analyst_node` (`market_analyst.py`, lines 71-154), after the
first model call produced `response`: with no tool calls the response text
becomes the report; otherwise the node looks up `get_daily_stock_data` in
its tool list and raises `ValueError` when it is absent (modelled as
`Except.error`); with the tool found it runs it on the first tool call's
arguments, reports the empty-data message on an empty frame, and otherwise
computes the indicator table and asks the model (`narrate`) for the final
report. -/
def market_analyst_node (tools : List AnalystTool)
    (rsiF macdF bollUbF bollLbF : List ℚ → Except String ℚ)
    (narrate : List (String × String) → String)
    (ticker startDate endDate : String) (response : AIMsg) :
    Except String MarketUpdate :=
  if response.tool_calls.isEmpty then
    Except.ok ⟨[response], response.content⟩
  else
    match findDataTool tools with
    | none => Except.error "The required tool \x27get_daily_stock_data\x27 was not found."
    | some tool =>
      let closes := tool.func (response.tool_calls.headI.args)
      if closes.isEmpty then
        let report := couldNotRetrieveReport ticker startDate endDate
        Except.ok ⟨[⟨report, []⟩], report⟩
      else
        let table := (indicatorValues rsiF macdF bollUbF bollLbF closes).map
          (fun p => (p.1, renderIndicatorEntry p.2))
        let report := narrate table
        Except.ok ⟨[⟨report, []⟩], report⟩

/- ========= C7: news / fundamentals / social analyst nodes ========= -/

/-- The state update one of the three plain analyst nodes returns: one
message plus the report string placed under that analyst's report key. -/
structure AnalystUpdate where
  messages : List AIMsg
  report : String
deriving DecidableEq, Repr

/-- The tail of `news_analyst_node` (`news_analyst.py`, lines 57-65):
`report = ""`, then `report = result.content` when the response has no
tool calls; the returned dict holds the single message and `news_report`. -/
def news_analyst_node (result : AIMsg) : AnalystUpdate :=
  ⟨[result], if result.tool_calls.length = 0 then result.content else ""⟩

/-- The tail of `fundamentals_analyst_node` (`fundamentals_analyst.py`,
lines 69-77), identical shape, report key `fundamentals_report`. -/
def fundamentals_analyst_node (result : AIMsg) : AnalystUpdate :=
  ⟨[result], if result.tool_calls.length = 0 then result.content else ""⟩

/-- The tail of `social_media_analyst_node` (`social_media_analyst.py`,
lines 64-72), identical shape, report key `sentiment_report`. -/
def social_media_analyst_node (result : AIMsg) : AnalystUpdate :=
  ⟨[result], if result.tool_calls.length = 0 then result.content else ""⟩

/-- Modelled from the spec: the graph's merge of a node's return value
into the running state ("mutated by each node's return value
(shallow-merged into the running state)", with the "accumulated message
log").  The news node's dict carries only `messages` and `news_report`. -/
def applyNewsUpdate (s : AgentState) (u : AnalystUpdate) : AgentState :=
  { s with messages := s.messages ++ u.messages, news_report := u.report }

/-- Modelled from the spec: shallow merge of the fundamentals node's dict
(`messages` and `fundamentals_report` only). -/
def applyFundamentalsUpdate (s : AgentState) (u : AnalystUpdate) : AgentState :=
  { s with messages := s.messages ++ u.messages, fundamentals_report := u.report }

/-- Modelled from the spec: shallow merge of the social node's dict
(`messages` and `sentiment_report` only). -/
def applySocialUpdate (s : AgentState) (u : AnalystUpdate) : AgentState :=
  { s with messages := s.messages ++ u.messages, sentiment_report := u.report }

/- ========= C8: CustomGoogleGenAIClient.invoke retry loop ========= -/

/-- Outcome of one HTTP attempt inside `CustomGoogleGenAIClient.invoke`
(`custom_llm_clients.py`, lines 107-156): a parsed response, a connection
error (`requests.exceptions.RequestException`), or an HTTP/parsing error
(`KeyError`/`IndexError`/`HTTPError`). -/
inductive AttemptOutcome where
  | success (msg : AIMsg)
  | connError (details : String)
  | httpParseError
deriving DecidableEq, Repr

/-- Whether an attempt outcome is a failure. -/
def AttemptOutcome.isFailure : AttemptOutcome → Bool
  | AttemptOutcome.success _ => false
  | AttemptOutcome.connError _ => true
  | AttemptOutcome.httpParseError => true

/-- The inline error message for an exhausted-retries failure
(`custom_llm_clients.py`, lines 146 and 151). -/
def exhaustedMessage : AttemptOutcome → AIMsg
  | AttemptOutcome.connError e =>
    ⟨"Error: Could not get response from Google AI. Details: " ++ e, []⟩
  | _ => ⟨"Error: Could not parse the response from Google AI.", []⟩

/-- The retry loop of `CustomGoogleGenAIClient.invoke`
(`custom_llm_clients.py`, lines 107-156), with the environment's reply to
each attempt given by `outcomes`.  Returns the message produced, the
number of attempts made, and the list of backoff delays slept (the loop
sleeps `base_delay * (attempt + 1)` seconds after a failed attempt that is
not the last one). -/
def invokeRetryLoop (outcomes : Nat → AttemptOutcome) (base_delay : Nat) :
    Nat → Nat → AIMsg × Nat × List Nat
  | _, 0 => (⟨"", []⟩, 0, [])
  | attempt, remaining + 1 =>
    match outcomes attempt with
    | AttemptOutcome.success m => (m, attempt + 1, [])
    | failure =>
      if remaining = 0 then
        (exhaustedMessage failure, attempt + 1, [])
      else
        let rest := invokeRetryLoop outcomes base_delay (attempt + 1) remaining
        (rest.1, rest.2.1, base_delay * (attempt + 1) :: rest.2.2)

/-- `CustomGoogleGenAIClient.invoke` with its hardcoded `max_retries = 5`
and `base_delay = 1` (`custom_llm_clients.py`, lines 107-108). -/
def customGoogleInvoke (outcomes : Nat → AttemptOutcome) :
    AIMsg × Nat × List Nat :=
  invokeRetryLoop outcomes 1 0 5

/- ========= C5: offline data-unavailable behavior ========= -/

/-- One row of the wrapped price frame as `get_stock_stats` reads it: the
row's date and the value of the requested indicator column on that row. -/
structure PriceRow where
  rowDate : String
  indicatorValue : ℚ
deriving DecidableEq, Repr

/-- What `get_stock_stats` produces when it does not raise: the indicator
value of the matching row, or the explicit not-available sentinel text. -/
inductive StatOutcome where
  | value (v : ℚ)
  | sentinel (msg : String)
deriving DecidableEq, Repr

/-- The non-trading-day sentinel of `stockstats_utils.py`, line 103. -/
def naSentinel : String :=
  "N/A: Not a trading day (weekend or holiday) or data not available for this date."

/-- The date lookup of `StockstatsUtils.get_stock_stats`
(`stockstats_utils.py`, lines 97-103): the first row whose date equals the
requested date yields the indicator value, an empty match yields the
sentinel text. -/
def statLookup (df : List PriceRow) (curr_date : String) :
    Except String StatOutcome :=
  match df.find? (fun r => r.rowDate == curr_date) with
  | some r => Except.ok (StatOutcome.value r.indicatorValue)
  | none => Except.ok (StatOutcome.sentinel naSentinel)

/-- The offline branch of `StockstatsUtils.get_stock_stats`
(`stockstats_utils.py`, lines 42-55 and 93-103): a frame already in the
in-memory cache is used directly; otherwise the cached CSV file is read,
and a missing file raises `Exception("Stockstats fail: Yahoo Finance data
not fetched yet!")` (modelled as `Except.error`); with a frame in hand the
date lookup runs.  The stockstats indicator computation itself is
third-party and is carried in the rows. -/
def get_stock_stats (memCache : Option (List PriceRow))
    (csvFile : Option (List PriceRow)) (curr_date : String) :
    Except String StatOutcome :=
  match memCache with
  | some df => statLookup df curr_date
  | none =>
    match csvFile with
    | none => Except.error "Stockstats fail: Yahoo Finance data not fetched yet!"
    | some df => statLookup df curr_date

/-- One cached Finnhub news entry (`finnhub_utils.py`). -/
structure NewsEntry where
  headline : String
  summary : String
deriving DecidableEq, Repr

/-- `get_data_in_range` (`finnhub_utils.py`, lines 31-62): it opens the
cached JSON file with no exception handler, so a missing file raises
`FileNotFoundError` (modelled as `Except.error`); otherwise it keeps the
keys inside the date range whose entry lists are non-empty. -/
def get_data_in_range (file : Option (List (String × List NewsEntry)))
    (start_date end_date : String) :
    Except String (List (String × List NewsEntry)) :=
  match file with
  | none => Except.error "FileNotFoundError"
  | some data =>
    Except.ok (data.filter
      (fun p => strLeB start_date p.1 && strLeB p.1 end_date && p.2.length > 0))

/-- The formatted block for one day of news (`interface.py`, lines 82-89). -/
def formatNewsDay (day : String) (entries : List NewsEntry) : String :=
  entries.foldl
    (fun acc e => acc ++ "### " ++ e.headline ++ " (" ++ day ++ ")" ++ "\n"
      ++ e.summary ++ "\n\n") ""

/-- `get_finnhub_news` (`interface.py`, lines 52-91): reads the cached
range (the calendar arithmetic producing `before` from `curr_date` and
`look_back_days` is abstracted into the `before` parameter), returns the
empty string when the range holds no data, and otherwise the formatted
report.  A missing cache file's exception propagates. -/
def get_finnhub_news (file : Option (List (String × List NewsEntry)))
    (ticker before curr_date : String) : Except String String := do
  let result ← get_data_in_range file before curr_date
  if result.length = 0 then
    return ""
  else
    let combined := result.foldl (fun acc p => acc ++ formatNewsDay p.1 p.2) ""
    return "## " ++ ticker ++ " News, from " ++ before ++ " to " ++ curr_date
      ++ ":\n" ++ combined

/- ========= C10: get_daily_stock_data (interface.py) ========= -/

/-- A pandas frame as `get_daily_stock_data` manipulates it: the (possibly
named) index, the column names, and the number of data rows. -/
structure DataFrame where
  indexName : Option String
  columns : List String
  nrows : Nat
deriving DecidableEq, Repr

/-- The result of the underlying `yf.download` call: a frame, or an
exception. -/
inductive DownloadOutcome where
  | ok (df : DataFrame)
  | raises (e : String)
deriving DecidableEq, Repr

/-- The fallback frame of `interface.py`, lines 39 and 47:
`pd.DataFrame(columns=["Open", "High", "Low", "Close", "Volume"])` (a
fresh unnamed range index, no rows). -/
def emptyFallbackDF : DataFrame :=
  ⟨none, ["Open", "High", "Low", "Close", "Volume"], 0⟩

/-- `pandas.DataFrame.reset_index`: the index is moved into a leading
column carrying the index's name (or `index` for an unnamed one) and
replaced by a fresh unnamed range index. -/
def resetIndex (df : DataFrame) : DataFrame :=
  ⟨none, df.indexName.getD "index" :: df.columns, df.nrows⟩

/-- `get_daily_stock_data` (`interface.py`, lines 18-47): any exception
from the download is caught and the capitalized-column empty fallback
frame returned; an empty download yields the same fallback; otherwise the
data column names are lowercased and the index reset. -/
def get_daily_stock_data (download : DownloadOutcome) : DataFrame :=
  match download with
  | DownloadOutcome.raises _ => emptyFallbackDF
  | DownloadOutcome.ok data =>
    if data.nrows = 0 then
      emptyFallbackDF
    else
      resetIndex { data with columns := data.columns.map lowerStr }

/- ===================== Theorems ===================== -/

/-- The identifiers `add_situations` appends: the existing identifiers
followed by `offset + i` for the batch positions `i`. -/
theorem add_situations_map_id (coll : List MemRecord)
    (batch : List (String × String)) :
    (add_situations coll batch).map MemRecord.memId
      = coll.map MemRecord.memId
        ++ (List.range batch.length).map (fun i => coll.length + i) := by
  simp only [add_situations, List.map_append, List.map_map]
  congr 1
  have h : ((fun r => r.memId) ∘ fun p : Nat × (String × String) =>
      (⟨coll.length + p.1, p.2.1, p.2.2⟩ : MemRecord))
        = (fun i => coll.length + i) ∘ Prod.fst := rfl
  rw [h, ← List.map_map, List.enum_map_fst]

/-- A collection whose identifiers are exactly `0, 1, …, count − 1` keeps
that shape across one `add_situations` call. -/
theorem add_situations_ids_range (coll : List MemRecord)
    (batch : List (String × String))
    (h : coll.map MemRecord.memId = List.range coll.length) :
    (add_situations coll batch).map MemRecord.memId
      = List.range (add_situations coll batch).length := by
  have hlen : (add_situations coll batch).length = coll.length + batch.length := by
    simp [add_situations]
  rw [add_situations_map_id, h, hlen, List.range_add]

/-- Identifier shape after any sequence of batches starting from a
collection with range-shaped identifiers. -/
theorem foldl_add_situations_ids (batches : List (List (String × String))) :
    ∀ coll : List MemRecord, coll.map MemRecord.memId = List.range coll.length →
      (batches.foldl add_situations coll).map MemRecord.memId
        = List.range (batches.foldl add_situations coll).length := by
  induction batches with
  | nil => intro coll h; simpa using h
  | cons b bs ih =>
    intro coll h
    simpa using ih (add_situations coll b) (add_situations_ids_range coll b h)

/-- C9: over every sequence of `add_situations` batches on a fresh
collection, the assigned identifiers are exactly `0, 1, 2, …` in insertion
order — strictly increasing along the collection (so identifiers of a
later batch are all greater than those of every earlier batch) and without
duplicates (no identifier reused). -/
theorem c9_add_situations_ids_monotone (batches : List (List (String × String))) :
    (batches.foldl add_situations []).map MemRecord.memId
      = List.range (batches.foldl add_situations []).length ∧
    ((batches.foldl add_situations []).map MemRecord.memId).Pairwise (· < ·) ∧
    ((batches.foldl add_situations []).map MemRecord.memId).Nodup := by
  have h := foldl_add_situations_ids batches [] (by simp)
  refine ⟨h, ?_, ?_⟩
  · rw [h]; exact List.pairwise_lt_range _
  · rw [h]; exact List.nodup_range _

/-- C10 counterexample: on a successful non-empty download shaped as
`yfinance` returns it (a named `Date` index over capitalized OHLCV
columns), the public result is not all-lowercase — resetting the index
re-inserts the capitalized `Date` column after the lowercasing. -/
theorem c10_counterexample :
    (get_daily_stock_data
        (DownloadOutcome.ok ⟨some "Date", ["Open", "High", "Low", "Close", "Volume"], 250⟩)).columns
      = ["Date", "open", "high", "low", "close", "volume"] ∧
    ¬ (∀ c ∈ (get_daily_stock_data
        (DownloadOutcome.ok ⟨some "Date", ["Open", "High", "Low", "Close", "Volume"], 250⟩)).columns,
          lowerStr c = c) := by
  constructor
  · decide
  · intro h
    have hd := h "Date" (by decide)
    revert hd
    decide

/-- C10 (amended): `get_daily_stock_data` is total over every download
outcome; an exception or an empty download yields the empty fallback frame
with exactly the capitalized columns Open, High, Low, Close, Volume, and a
non-empty download yields the frame with its data columns lowercased and
its index reset into a leading column keeping the index's original name —
so the fallback and the success path disagree on the OHLCV column-name
casing at the public tool interface. -/
theorem c10_get_daily_stock_data_total (download : DownloadOutcome) :
    (∀ e, download = DownloadOutcome.raises e →
      get_daily_stock_data download = emptyFallbackDF) ∧
    (∀ df, download = DownloadOutcome.ok df → df.nrows = 0 →
      get_daily_stock_data download = emptyFallbackDF) ∧
    (∀ df, download = DownloadOutcome.ok df → df.nrows ≠ 0 →
      (get_daily_stock_data download).columns
        = df.indexName.getD "index" :: df.columns.map lowerStr ∧
      (get_daily_stock_data download).nrows = df.nrows) ∧
    emptyFallbackDF.columns = ["Open", "High", "Low", "Close", "Volume"] := by
  refine ⟨?_, ?_, ?_, rfl⟩
  · rintro e rfl; rfl
  · rintro df rfl h; simp [get_daily_stock_data, h]
  · rintro df rfl h; simp [get_daily_stock_data, h, resetIndex]

/-- Witness for C10: a raising download and an empty download both give
the fallback frame, and a concrete successful download gives the lowered
columns behind the reset `Date` column. -/
theorem c10_witness :
    get_daily_stock_data (DownloadOutcome.raises "HTTPError")
      = emptyFallbackDF ∧
    get_daily_stock_data (DownloadOutcome.ok ⟨some "Date", ["Open", "Close"], 0⟩)
      = emptyFallbackDF ∧
    (get_daily_stock_data (DownloadOutcome.ok ⟨some "Date", ["Open", "Close"], 3⟩)).columns
      = (some "Date").getD "index" :: ["Open", "Close"].map lowerStr :=
  ⟨(c10_get_daily_stock_data_total (DownloadOutcome.raises "HTTPError")).1
      "HTTPError" rfl,
   (c10_get_daily_stock_data_total
      (DownloadOutcome.ok ⟨some "Date", ["Open", "Close"], 0⟩)).2.1
      ⟨some "Date", ["Open", "Close"], 0⟩ rfl rfl,
   ((c10_get_daily_stock_data_total
      (DownloadOutcome.ok ⟨some "Date", ["Open", "Close"], 3⟩)).2.2.1
      ⟨some "Date", ["Open", "Close"], 3⟩ rfl (by norm_num)).1⟩

/-- C5 counterexample: the offline `get_stock_stats` raises on a missing
cached file instead of returning a sentinel; `get_finnhub_news` raises (an
uncaught `FileNotFoundError` from `get_data_in_range`) on a missing cached
file, and returns the empty string — not an explicit "not available"
sentinel text — on an empty cached dataset. -/
theorem c5_counterexample :
    get_stock_stats none none "2024-01-02"
      = Except.error "Stockstats fail: Yahoo Finance data not fetched yet!" ∧
    get_finnhub_news none "AAPL" "2023-12-26" "2024-01-02"
      = Except.error "FileNotFoundError" ∧
    get_finnhub_news (some []) "AAPL" "2023-12-26" "2024-01-02"
      = Except.ok "" :=
  ⟨rfl, rfl, rfl⟩

/-- C5 (amended): only the non-trading-day case yields the explicit
sentinel: a present dataset with no row for the requested date makes
`get_stock_stats` return the "N/A: Not a trading day…" text without
raising; a missing cached file makes `get_stock_stats` raise
("Stockstats fail…") and makes `get_finnhub_news` raise
(`FileNotFoundError`), and an empty cached dataset in range makes
`get_finnhub_news` return the empty string rather than a sentinel. -/
theorem c5_data_unavailable_behavior (df : List PriceRow)
    (curr_date ticker before : String) (data : List (String × List NewsEntry)) :
    (df.find? (fun r => r.rowDate == curr_date) = none →
      get_stock_stats none (some df) curr_date
        = Except.ok (StatOutcome.sentinel naSentinel)) ∧
    (∀ cache, get_stock_stats (some cache) none curr_date = statLookup cache curr_date) ∧
    get_stock_stats none none curr_date
      = Except.error "Stockstats fail: Yahoo Finance data not fetched yet!" ∧
    (data.filter (fun p => strLeB before p.1 && strLeB p.1 curr_date && p.2.length > 0) = [] →
      get_finnhub_news (some data) ticker before curr_date = Except.ok "") ∧
    get_finnhub_news none ticker before curr_date
      = Except.error "FileNotFoundError" := by
  refine ⟨?_, fun cache => rfl, rfl, ?_, rfl⟩
  · intro h
    simp [get_stock_stats, statLookup, h]
  · intro h
    simp only [get_finnhub_news, get_data_in_range, h]
    rfl

/-- Witness for C5 at concrete inputs: a dataset present but with no row
for the requested date yields the sentinel, and an off-range dataset
yields the empty news string. -/
theorem c5_witness :
    get_stock_stats none (some [⟨"2024-01-03", 10⟩]) "2024-01-02"
      = Except.ok (StatOutcome.sentinel naSentinel) ∧
    get_finnhub_news (some [("2022-01-01", [⟨"h", "s"⟩])]) "AAPL" "2023-12-26" "2024-01-02"
      = Except.ok "" :=
  ⟨(c5_data_unavailable_behavior [⟨"2024-01-03", 10⟩] "2024-01-02" "AAPL" "2023-12-26"
      []).1 (by decide),
   (c5_data_unavailable_behavior [] "2024-01-02" "AAPL" "2023-12-26"
      [("2022-01-01", [⟨"h", "s"⟩])]).2.2.2.1 (by decide)⟩

/-- C2: for every stored collection and query, `get_memories` returns
records whose similarity score is 1 minus the stored distance, ordered by
descending similarity; with `n_matches` requested it returns
`min n_matches count` records, and when fewer than `n_matches` are stored
the image of every stored record is returned. -/
theorem c2_get_memories_sorted_and_complete (stored : List QueryHit)
    (n_matches : Nat) :
    (get_memories stored n_matches).Pairwise
      (fun a b => b.similarity_score ≤ a.similarity_score) ∧
    (get_memories stored n_matches).length = min n_matches stored.length ∧
    (∀ m ∈ get_memories stored n_matches, ∃ h ∈ stored,
      m.matched_situation = h.document ∧ m.recommendation = h.recommendation ∧
      m.similarity_score = 1 - h.distance) ∧
    (stored.length ≤ n_matches → ∀ h ∈ stored,
      (⟨h.document, h.recommendation, 1 - h.distance⟩ : MemMatch)
        ∈ get_memories stored n_matches) := by
  refine ⟨?_, ?_, ?_, ?_⟩
  · have hs : (stored.insertionSort hitLE).Pairwise hitLE :=
      List.sorted_insertionSort hitLE stored
    have ht : (collection_query stored n_matches).Pairwise hitLE :=
      List.Pairwise.sublist (List.take_sublist n_matches _) hs
    exact ht.map _ (fun a b hab => by
      simpa using sub_le_sub_left hab 1)
  · simp [get_memories, collection_query]
  · intro m hm
    obtain ⟨h, hh, rfl⟩ := List.mem_map.mp hm
    refine ⟨h, ?_, rfl, rfl, rfl⟩
    exact (List.mem_insertionSort hitLE).mp (List.mem_of_mem_take hh)
  · intro hk h hh
    have hlen : (stored.insertionSort hitLE).length ≤ n_matches := by
      simpa using hk
    have htake : collection_query stored n_matches = stored.insertionSort hitLE := by
      simp [collection_query, List.take_of_length_le hlen]
    apply List.mem_map.mpr
    exact ⟨h, by rw [htake]; exact (List.mem_insertionSort hitLE).mpr hh, rfl⟩

/-- Witness for C2: two stored records and five requested matches — all
stored records come back, the nearer one with the higher similarity. -/
theorem c2_witness :
    (([⟨"sit a", "rec a", 1/2⟩, ⟨"sit b", "rec b", 1/4⟩] : List QueryHit).length ≤ 5) ∧
    (⟨"sit b", "rec b", 1 - 1/4⟩ : MemMatch)
      ∈ get_memories [⟨"sit a", "rec a", 1/2⟩, ⟨"sit b", "rec b", 1/4⟩] 5 ∧
    (⟨"sit a", "rec a", 1 - 1/2⟩ : MemMatch)
      ∈ get_memories [⟨"sit a", "rec a", 1/2⟩, ⟨"sit b", "rec b", 1/4⟩] 5 :=
  ⟨by norm_num,
   (c2_get_memories_sorted_and_complete
      [⟨"sit a", "rec a", 1/2⟩, ⟨"sit b", "rec b", 1/4⟩] 5).2.2.2 (by norm_num)
      ⟨"sit b", "rec b", 1/4⟩ (by simp),
   (c2_get_memories_sorted_and_complete
      [⟨"sit a", "rec a", 1/2⟩, ⟨"sit b", "rec b", 1/4⟩] 5).2.2.2 (by norm_num)
      ⟨"sit a", "rec a", 1/2⟩ (by simp)⟩

/-- Any word `firstSignalWord` finds is one of the three signal words. -/
theorem firstSignalWord_mem (cs : List Char) (s : String)
    (h : firstSignalWord cs = some s) : s = "BUY" ∨ s = "SELL" ∨ s = "HOLD" := by
  induction cs with
  | nil => simp [firstSignalWord] at h
  | cons c rest ih =>
    rw [firstSignalWord] at h
    split at h
    · exact Or.inl (Option.some.inj h).symm
    · split at h
      · exact Or.inr (Or.inl (Option.some.inj h).symm)
      · split at h
        · exact Or.inr (Or.inr (Option.some.inj h).symm)
        · exact ih h

/-- C3: signal extraction is a pure function of the decision text, always
yielding one of BUY, HOLD, SELL; a text without the marker phrase yields
the documented fallback HOLD (a non-empty value, not an exception); and a
marker followed by BUY, SELL or HOLD yields that word. -/
theorem c3_process_signal_deterministic_fallback (full_signal : String) :
    (process_signal full_signal = "BUY" ∨ process_signal full_signal = "HOLD" ∨
      process_signal full_signal = "SELL") ∧
    (dropToMarker signalMarker full_signal.data = none →
      process_signal full_signal = "HOLD") ∧
    process_signal full_signal ≠ "" ∧
    process_signal "FINAL TRANSACTION PROPOSAL: **BUY**" = "BUY" ∧
    process_signal "FINAL TRANSACTION PROPOSAL: **SELL**" = "SELL" ∧
    process_signal "FINAL TRANSACTION PROPOSAL: **HOLD**" = "HOLD" := by
  have hmem : process_signal full_signal = "BUY" ∨
      process_signal full_signal = "HOLD" ∨
      process_signal full_signal = "SELL" := by
    rw [process_signal]
    rcases hdrop : dropToMarker signalMarker full_signal.data with _ | rest
    · exact Or.inr (Or.inl rfl)
    · rcases hfirst : firstSignalWord rest with _ | s
      · simp [hfirst]
      · rcases firstSignalWord_mem rest s hfirst with h | h | h <;>
          simp [hfirst, h]
  refine ⟨hmem, ?_, ?_, by decide, by decide, by decide⟩
  · intro h
    rw [process_signal, h]
  · rcases hmem with h | h | h <;> rw [h] <;> decide

/-- Witness for C3: a decision text without the marker phrase falls back
to HOLD. -/
theorem c3_witness :
    dropToMarker signalMarker "I would buy some".data = none ∧
    process_signal "I would buy some" = "HOLD" :=
  ⟨by decide,
   (c3_process_signal_deterministic_fallback "I would buy some").2.1 (by decide)⟩

/-- The last row of a rolling SMA column over a long enough series is the
mean of the last `w` values. -/
theorem rollingSMA_last (w : Nat) (closes : List ℚ) (hw : 0 < w)
    (h : w ≤ closes.length) :
    (rollingSMA w closes).getLast?
      = some ((closes.drop (closes.length - w)).sum / (w : ℚ)) := by
  have hn : 0 < closes.length := lt_of_lt_of_le hw h
  have h1 : closes.length - 1 + 1 = closes.length := Nat.succ_pred_eq_of_pos hn
  rw [rollingSMA, List.getLast?_eq_getElem?]
  rw [List.length_map, List.length_range, List.getElem?_map,
    List.getElem?_range (Nat.sub_lt hn Nat.one_pos)]
  simp only [Option.map_some', Option.some.injEq, h1, List.take_length]
  have h2 : ((closes.drop (closes.length - w)).length : ℚ) = (w : ℚ) := by
    rw [List.length_drop]
    congr 1
    omega
  rw [h2]

/-- C4 counterexample: on the one-row close series `[10]` (fewer than 2
rows) the node's computed `close_200_sma` entry is the numeric value 10 —
a successfully computed number, not a "not enough data" report (nor any
error entry). -/
theorem c4_counterexample :
    (indicatorValues (fun _ => Except.error "stockstats error")
        (fun _ => Except.error "stockstats error")
        (fun _ => Except.error "stockstats error")
        (fun _ => Except.error "stockstats error") [10]).lookup "close_200_sma"
      = some (Except.ok 10) ∧
    ∀ msg : String, (Except.ok (10 : ℚ) : Except String ℚ) ≠ Except.error msg := by
  constructor
  · simp [indicatorValues, rollingSMA, lastRowValue, List.lookup, List.range_succ]
  · intro msg hmsg
    exact Except.noConfusion hmsg

/-- C4 (amended): for every close series of at least 200 rows the
`close_200_sma` column's last row equals the arithmetic mean of the last
200 closes exactly (so within any positive tolerance); with fewer than 2
rows the node never raises: an empty frame produces the
"Could not retrieve historical stock data…" report, a one-row series
produces the numeric close value itself as `close_200_sma` (not a
"not enough data" report), and any per-indicator exception is rendered as
an inline "Error calculating:" entry instead of propagating. -/
theorem c4_close_200_sma_and_small_input (closes : List ℚ)
    (rsiF macdF bollUbF bollLbF : List ℚ → Except String ℚ)
    (narrate : List (String × String) → String)
    (tools : List AnalystTool) (tool : AnalystTool)
    (ticker startDate endDate : String) (response : AIMsg) :
    (200 ≤ closes.length →
      (rollingSMA 200 closes).getLast?
        = some ((closes.drop (closes.length - 200)).sum / (200 : ℚ))) ∧
    (findDataTool tools = some tool → response.tool_calls ≠ [] →
      tool.func response.tool_calls.headI.args = [] →
      market_analyst_node tools rsiF macdF bollUbF bollLbF narrate
          ticker startDate endDate response
        = Except.ok ⟨[⟨couldNotRetrieveReport ticker startDate endDate, []⟩],
            couldNotRetrieveReport ticker startDate endDate⟩) ∧
    (∀ c : ℚ,
      (indicatorValues rsiF macdF bollUbF bollLbF [c]).lookup "close_200_sma"
        = some (Except.ok c)) ∧
    (∀ e, renderIndicatorEntry (Except.error e) = "Error calculating: " ++ e) := by
  refine ⟨?_, ?_, ?_, fun e => rfl⟩
  · intro hlen
    exact rollingSMA_last 200 closes (by norm_num) hlen
  · intro hfind hcalls hempty
    have h1 : response.tool_calls.isEmpty = false := by
      simpa [List.isEmpty_iff] using hcalls
    simp [market_analyst_node, h1, hfind, hempty]
  · intro c
    simp [indicatorValues, rollingSMA, lastRowValue, List.lookup, List.range_succ]

set_option maxRecDepth 8000 in
/-- Witness for C4 at a concrete 200-row series of constant close 7: the
last `close_200_sma` row is 7, and a concrete empty frame yields the
could-not-retrieve report. -/
theorem c4_witness :
    (200 ≤ (List.replicate 200 (7 : ℚ)).length) ∧
    (rollingSMA 200 (List.replicate 200 (7 : ℚ))).getLast?
      = some (((List.replicate 200 (7 : ℚ)).drop
          ((List.replicate 200 (7 : ℚ)).length - 200)).sum / (200 : ℚ)) ∧
    market_analyst_node [⟨"get_daily_stock_data", fun _ => []⟩]
        (fun _ => Except.error "rsi") (fun _ => Except.error "macd")
        (fun _ => Except.error "bu") (fun _ => Except.error "bl") (fun _ => "")
        "AAPL" "2023-06-03" "2024-06-03"
        ⟨"", [⟨"get_daily_stock_data", [], "call_1"⟩]⟩
      = Except.ok ⟨[⟨couldNotRetrieveReport "AAPL" "2023-06-03" "2024-06-03", []⟩],
          couldNotRetrieveReport "AAPL" "2023-06-03" "2024-06-03"⟩ :=
  ⟨by decide,
   (c4_close_200_sma_and_small_input (List.replicate 200 (7 : ℚ))
      (fun _ => Except.error "rsi") (fun _ => Except.error "macd")
      (fun _ => Except.error "bu") (fun _ => Except.error "bl") (fun _ => "")
      [⟨"get_daily_stock_data", fun _ => []⟩] ⟨"get_daily_stock_data", fun _ => []⟩
      "AAPL" "2023-06-03" "2024-06-03"
      ⟨"", [⟨"get_daily_stock_data", [], "call_1"⟩]⟩).1 (by decide),
   (c4_close_200_sma_and_small_input (List.replicate 200 (7 : ℚ))
      (fun _ => Except.error "rsi") (fun _ => Except.error "macd")
      (fun _ => Except.error "bu") (fun _ => Except.error "bl") (fun _ => "")
      [⟨"get_daily_stock_data", fun _ => []⟩] ⟨"get_daily_stock_data", fun _ => []⟩
      "AAPL" "2023-06-03" "2024-06-03"
      ⟨"", [⟨"get_daily_stock_data", [], "call_1"⟩]⟩).2.1 rfl (by simp) rfl⟩

/-- When every attempt in a window fails, the retry loop makes exactly the
whole window of attempts, sleeps `base_delay * (attempt + 1)` after each
failed attempt but the last, and returns the inline error message for the
last failure. -/
theorem invokeRetryLoop_all_failures (outcomes : Nat → AttemptOutcome)
    (base_delay : Nat) (r : Nat) :
    ∀ attempt,
      (∀ j, j < r + 1 → (outcomes (attempt + j)).isFailure = true) →
      invokeRetryLoop outcomes base_delay attempt (r + 1)
        = (exhaustedMessage (outcomes (attempt + r)),
           attempt + r + 1,
           (List.range' (attempt + 1) r).map (fun k => base_delay * k)) := by
  induction r with
  | zero =>
    intro attempt hfail
    have h0 : (outcomes (attempt + 0)).isFailure = true := hfail 0 Nat.one_pos
    rcases houtcome : outcomes attempt with m | e | _
    · rw [show attempt + 0 = attempt from rfl, houtcome] at h0
      simp [AttemptOutcome.isFailure] at h0
    · simp [invokeRetryLoop, houtcome]
    · simp [invokeRetryLoop, houtcome]
  | succ r ih =>
    intro attempt hfail
    have h0 : (outcomes attempt).isFailure = true := by
      simpa using hfail 0 (Nat.succ_pos _)
    have hshift : ∀ j, j < r + 1 → (outcomes (attempt + 1 + j)).isFailure = true := by
      intro j hj
      have := hfail (j + 1) (Nat.succ_lt_succ hj)
      have harith : attempt + (j + 1) = attempt + 1 + j := by omega
      rwa [harith] at this
    have hrecur := ih (attempt + 1) hshift
    have hidx : attempt + 1 + r = attempt + (r + 1) := by omega
    rw [hidx] at hrecur
    rcases houtcome : outcomes attempt with m | e | _
    · rw [houtcome] at h0; simp [AttemptOutcome.isFailure] at h0
    · rw [invokeRetryLoop, houtcome]
      simp only [Nat.succ_ne_zero, if_false, hrecur, List.range'_succ]
      refine congrArg₂ Prod.mk rfl (congrArg₂ Prod.mk (by omega) rfl)
    · rw [invokeRetryLoop, houtcome]
      simp only [Nat.succ_ne_zero, if_false, hrecur, List.range'_succ]
      refine congrArg₂ Prod.mk rfl (congrArg₂ Prod.mk (by omega) rfl)

/-- C8: when all five attempts of `CustomGoogleGenAIClient.invoke` fail,
the client makes exactly 5 attempts, sleeps the linearly increasing
backoff delays `base_delay * attempt` = 1, 2, 3, 4 seconds between
consecutive attempts, and returns an `AIMessage` whose content is an
inline error string (no exception escapes the modelled failure modes). -/
theorem c8_invoke_retry_backoff (outcomes : Nat → AttemptOutcome)
    (hfail : ∀ j, j < 5 → (outcomes j).isFailure = true) :
    (customGoogleInvoke outcomes).2.1 = 5 ∧
    (customGoogleInvoke outcomes).2.2 = [1 * 1, 1 * 2, 1 * 3, 1 * 4] ∧
    (customGoogleInvoke outcomes).1 = exhaustedMessage (outcomes 4) ∧
    ((customGoogleInvoke outcomes).1.content
        = "Error: Could not parse the response from Google AI." ∨
      ∃ e, (customGoogleInvoke outcomes).1.content
        = "Error: Could not get response from Google AI. Details: " ++ e) ∧
    (customGoogleInvoke outcomes).1.tool_calls = [] := by
  have hrun : customGoogleInvoke outcomes
      = (exhaustedMessage (outcomes 4), 5,
         (List.range' 1 4).map (fun k => 1 * k)) := by
    have h := invokeRetryLoop_all_failures outcomes 1 4 0
      (fun j hj => by simpa using hfail j hj)
    simpa [customGoogleInvoke] using h
  refine ⟨by rw [hrun], by rw [hrun]; rfl, by rw [hrun], ?_, ?_⟩
  · rw [hrun]
    rcases houtcome : outcomes 4 with m | e | _
    · have := hfail 4 (by norm_num)
      rw [houtcome] at this
      simp [AttemptOutcome.isFailure] at this
    · exact Or.inr ⟨e, by simp [exhaustedMessage]⟩
    · exact Or.inl (by simp [exhaustedMessage])
  · rw [hrun]
    rcases houtcome : outcomes 4 with m | e | _ <;>
      simp [exhaustedMessage]

/-- Witness for C8: with every attempt failing as an HTTP/parsing error,
the call makes 5 attempts, sleeps 1, 2, 3, 4, and yields the inline
parse-error message. -/
theorem c8_witness :
    (customGoogleInvoke (fun _ => AttemptOutcome.httpParseError)).2.1 = 5 ∧
    (customGoogleInvoke (fun _ => AttemptOutcome.httpParseError)).2.2
      = [1 * 1, 1 * 2, 1 * 3, 1 * 4] ∧
    (customGoogleInvoke (fun _ => AttemptOutcome.httpParseError)).1
      = exhaustedMessage (AttemptOutcome.httpParseError) :=
  ⟨(c8_invoke_retry_backoff (fun _ => AttemptOutcome.httpParseError)
      (fun _ _ => rfl)).1,
   (c8_invoke_retry_backoff (fun _ => AttemptOutcome.httpParseError)
      (fun _ _ => rfl)).2.1,
   (c8_invoke_retry_backoff (fun _ => AttemptOutcome.httpParseError)
      (fun _ _ => rfl)).2.2.1⟩

/-- C1: for every investment-debate state whose round counter has reached
the configured maximum the router selects the investment judge and never a
debater, while below the maximum (in particular at max − 1) it selects the
bull or the bear debater, never the judge. -/
theorem c1_debate_routing_judge_at_max (max_debate_rounds : Nat)
    (s : InvestDebateState) :
    (max_debate_rounds ≤ s.round_count →
      should_continue_debate max_debate_rounds s = DebateRoute.researchManager) ∧
    (s.round_count < max_debate_rounds →
      should_continue_debate max_debate_rounds s ≠ DebateRoute.researchManager ∧
      (should_continue_debate max_debate_rounds s = DebateRoute.bullResearcher ∨
       should_continue_debate max_debate_rounds s = DebateRoute.bearResearcher)) := by
  constructor
  · intro h
    simp [should_continue_debate, h]
  · intro h
    have h2 : ¬ max_debate_rounds ≤ s.round_count := Nat.not_le.mpr h
    simp only [should_continue_debate, if_neg h2]
    by_cases h3 : s.current_response.startsWith "Bull" <;> simp [h3]

/-- Witness for C1 with the configured maximum 2: at round counts 2 (max)
and 3 (max + 1) the judge is selected, at 1 (max − 1) a debater is. -/
theorem c1_witness :
    should_continue_debate 2 ⟨"", "", "", "", 2, ""⟩ = DebateRoute.researchManager ∧
    should_continue_debate 2 ⟨"", "", "", "", 3, ""⟩ = DebateRoute.researchManager ∧
    should_continue_debate 2 ⟨"", "", "", "", 1, ""⟩ ≠ DebateRoute.researchManager :=
  ⟨(c1_debate_routing_judge_at_max 2 ⟨"", "", "", "", 2, ""⟩).1 (by norm_num),
   (c1_debate_routing_judge_at_max 2 ⟨"", "", "", "", 3, ""⟩).1 (by norm_num),
   ((c1_debate_routing_judge_at_max 2 ⟨"", "", "", "", 1, ""⟩).2 (by norm_num)).1⟩

/-- C6: when the model response carries tool calls and no tool named
`get_daily_stock_data` is in the provided tool set, the market analyst
node raises (an error aborting the run) for every such state. -/
theorem c6_missing_tool_aborts (tools : List AnalystTool)
    (rsiF macdF bollUbF bollLbF : List ℚ → Except String ℚ)
    (narrate : List (String × String) → String)
    (ticker startDate endDate : String) (response : AIMsg)
    (hcalls : response.tool_calls ≠ [])
    (hmissing : ∀ t ∈ tools, t.name ≠ "get_daily_stock_data") :
    market_analyst_node tools rsiF macdF bollUbF bollLbF narrate
        ticker startDate endDate response
      = Except.error "The required tool \x27get_daily_stock_data\x27 was not found." := by
  have h1 : response.tool_calls.isEmpty = false := by
    simpa [List.isEmpty_iff] using hcalls
  have h2 : findDataTool tools = none := by
    apply List.find?_eq_none.mpr
    intro t ht
    simpa using hmissing t ht
  simp [market_analyst_node, h1, h2]

/-- Witness for C6: an empty tool set and a response requesting the data
tool produce the fatal error. -/
theorem c6_witness :
    market_analyst_node [] (fun _ => Except.error "rsi") (fun _ => Except.error "macd")
        (fun _ => Except.error "bu") (fun _ => Except.error "bl") (fun _ => "")
        "AAPL" "2023-06-03" "2024-06-03"
        ⟨"", [⟨"get_daily_stock_data", [], "call_1"⟩]⟩
      = Except.error "The required tool \x27get_daily_stock_data\x27 was not found." :=
  c6_missing_tool_aborts [] (fun _ => Except.error "rsi") (fun _ => Except.error "macd")
    (fun _ => Except.error "bu") (fun _ => Except.error "bl") (fun _ => "")
    "AAPL" "2023-06-03" "2024-06-03"
    ⟨"", [⟨"get_daily_stock_data", [], "call_1"⟩]⟩
    (by simp) (by simp)

/-- C7: for each of the news, fundamentals and social analyst nodes, the
merged state appends exactly the one model message; with no tool calls the
node's own report field equals the response text, with tool calls it is
the empty string (not the response text); the other report fields are
unchanged. -/
theorem c7_analyst_report_frame (s : AgentState) (r : AIMsg) :
    ((applyNewsUpdate s (news_analyst_node r)).messages = s.messages ++ [r] ∧
     (r.tool_calls = [] →
       (applyNewsUpdate s (news_analyst_node r)).news_report = r.content) ∧
     (r.tool_calls ≠ [] →
       (applyNewsUpdate s (news_analyst_node r)).news_report = "") ∧
     (applyNewsUpdate s (news_analyst_node r)).market_report = s.market_report ∧
     (applyNewsUpdate s (news_analyst_node r)).sentiment_report = s.sentiment_report ∧
     (applyNewsUpdate s (news_analyst_node r)).fundamentals_report
       = s.fundamentals_report) ∧
    ((applyFundamentalsUpdate s (fundamentals_analyst_node r)).messages
       = s.messages ++ [r] ∧
     (r.tool_calls = [] →
       (applyFundamentalsUpdate s (fundamentals_analyst_node r)).fundamentals_report
         = r.content) ∧
     (r.tool_calls ≠ [] →
       (applyFundamentalsUpdate s (fundamentals_analyst_node r)).fundamentals_report
         = "") ∧
     (applyFundamentalsUpdate s (fundamentals_analyst_node r)).market_report
       = s.market_report ∧
     (applyFundamentalsUpdate s (fundamentals_analyst_node r)).sentiment_report
       = s.sentiment_report ∧
     (applyFundamentalsUpdate s (fundamentals_analyst_node r)).news_report
       = s.news_report) ∧
    ((applySocialUpdate s (social_media_analyst_node r)).messages
       = s.messages ++ [r] ∧
     (r.tool_calls = [] →
       (applySocialUpdate s (social_media_analyst_node r)).sentiment_report
         = r.content) ∧
     (r.tool_calls ≠ [] →
       (applySocialUpdate s (social_media_analyst_node r)).sentiment_report = "") ∧
     (applySocialUpdate s (social_media_analyst_node r)).market_report
       = s.market_report ∧
     (applySocialUpdate s (social_media_analyst_node r)).news_report = s.news_report ∧
     (applySocialUpdate s (social_media_analyst_node r)).fundamentals_report
       = s.fundamentals_report) := by
  refine ⟨⟨rfl, ?_, ?_, rfl, rfl, rfl⟩, ⟨rfl, ?_, ?_, rfl, rfl, rfl⟩,
    ⟨rfl, ?_, ?_, rfl, rfl, rfl⟩⟩ <;> intro h <;>
    simp [applyNewsUpdate, applyFundamentalsUpdate, applySocialUpdate,
      news_analyst_node, fundamentals_analyst_node, social_media_analyst_node,
      h, List.length_eq_zero]

/-- Witness for C7 at a concrete state and a response without tool calls:
the news report becomes the response text and the market report is kept. -/
theorem c7_witness :
    (applyNewsUpdate
        ⟨"AAPL", "2024-06-03", [], "m", "se", "n", "f",
          ⟨"", "", "", "", 0, ""⟩, ⟨"", "", "", "", 0, ""⟩, "", "", ""⟩
        (news_analyst_node ⟨"news text", []⟩)).news_report = "news text" ∧
    (applyNewsUpdate
        ⟨"AAPL", "2024-06-03", [], "m", "se", "n", "f",
          ⟨"", "", "", "", 0, ""⟩, ⟨"", "", "", "", 0, ""⟩, "", "", ""⟩
        (news_analyst_node ⟨"news text", []⟩)).market_report = "m" :=
  ⟨((c7_analyst_report_frame
      ⟨"AAPL", "2024-06-03", [], "m", "se", "n", "f",
        ⟨"", "", "", "", 0, ""⟩, ⟨"", "", "", "", 0, ""⟩, "", "", ""⟩
      ⟨"news text", []⟩).1).2.1 rfl,
   ((c7_analyst_report_frame
      ⟨"AAPL", "2024-06-03", [], "m", "se", "n", "f",
        ⟨"", "", "", "", 0, ""⟩, ⟨"", "", "", "", 0, ""⟩, "", "", ""⟩
      ⟨"news text", []⟩).1).2.2.2.1⟩
